import Mathlib

/-!
Shallow embedding of the audio-response pipeline of the Mustafa-AI chat
application.  The modelled code is the `speak` routine of `App.tsx`
(stop previous audio, request synthesized speech, attempt direct playback
of the returned base64 payload, fall back to synthesizing a 44-byte WAV
container header over the decoded raw PCM bytes, and finally fall back to
platform speech synthesis) together with its `writeString` helper.

Bytes are modelled as `Nat` values below 256 and byte buffers as
`List Nat`.  Strings are modelled as Lean strings; the payloads and texts
involved consist of basic-plane characters, for which one character is
one UTF-16 code unit, so JavaScript `substring`/`charCodeAt` correspond
to character-level `take`/`Char.toNat`.
-/

/-- `DataView.setUint8(off, v)`: store `v` truncated to one byte (JS
`ToUint8` is reduction mod 256).  Offsets used by the code are always in
bounds of the 44-byte buffer. -/
def setUint8 (view : List Nat) (off v : Nat) : List Nat :=
  view.set off (v % 256)

/-- `DataView.setUint16(off, v, true)`: `ToUint16` then two bytes,
little-endian.  Byte `k` of `v % 2^16` is `v / 256^k % 256`. -/
def setUint16 (view : List Nat) (off v : Nat) : List Nat :=
  (view.set off (v % 256)).set (off + 1) (v / 256 % 256)

/-- `DataView.setUint32(off, v, true)`: `ToUint32` then four bytes,
little-endian.  Byte `k` of `v % 2^32` is `v / 256^k % 256`. -/
def setUint32 (view : List Nat) (off v : Nat) : List Nat :=
  ((((view.set off (v % 256)).set (off + 1) (v / 256 % 256)).set
      (off + 2) (v / 65536 % 256)).set (off + 3) (v / 16777216 % 256))

/-- Helper for `writeString`: write the code units of the remaining
characters at consecutive offsets. -/
def writeStringAux (view : List Nat) (off : Nat) : List Char → List Nat
  | [] => view
  | c :: cs => writeStringAux (setUint8 view off c.toNat) (off + 1) cs

/-- The `writeString` helper of `App.tsx`: for each index `i` of the
string, `view.setUint8(offset + i, string.charCodeAt(i))`. -/
def writeString (view : List Nat) (off : Nat) (s : String) : List Nat :=
  writeStringAux view off s.data

/-- The inline WAV-header construction of `speak` (the spec's Container
Header Synthesizer `buildHeader`): a fresh 44-byte `ArrayBuffer` (zeroed)
written field by field in source order. -/
def buildHeader (sampleRate numChannels bitsPerSample len : Nat) : List Nat :=
  let view := List.replicate 44 0
  let view := writeString view 0 "RIFF"
  let view := setUint32 view 4 (36 + len)
  let view := writeString view 8 "WAVE"
  let view := writeString view 12 "fmt "
  let view := setUint32 view 16 16
  let view := setUint16 view 20 1
  let view := setUint16 view 22 numChannels
  let view := setUint32 view 24 sampleRate
  let view := setUint32 view 28 (sampleRate * numChannels * (bitsPerSample / 8))
  let view := setUint16 view 32 (numChannels * (bitsPerSample / 8))
  let view := setUint16 view 34 bitsPerSample
  let view := writeString view 36 "data"
  setUint32 view 40 len

/-- Spec-side little-endian encoding of a 16-bit field (the byte shapes
match `setUint16`). -/
def u16le (v : Nat) : List Nat :=
  [v % 256, v / 256 % 256]

/-- Spec-side little-endian encoding of a 32-bit field (the byte shapes
match `setUint32`). -/
def u32le (v : Nat) : List Nat :=
  [v % 256, v / 256 % 256, v / 65536 % 256, v / 16777216 % 256]

/-- Decode `sz` bytes starting at the head of a buffer as a little-endian
unsigned integer. -/
def readLEfrom : List Nat → Nat → Nat
  | _, 0 => 0
  | [], _ + 1 => 0
  | b :: rest, k + 1 => b + 256 * readLEfrom rest k

/-- Decode the `sz`-byte little-endian field at offset `off`. -/
def readLE (view : List Nat) (off sz : Nat) : Nat :=
  readLEfrom (view.drop off) sz

/-- ASCII whitespace, removed by the forgiving-base64 decode of
`window.atob`: TAB, LF, FF, CR, SPACE. -/
def isB64Whitespace (c : Char) : Bool :=
  c = Char.ofNat 9 || c = Char.ofNat 10 || c = Char.ofNat 12 ||
  c = Char.ofNat 13 || c = Char.ofNat 32

/-- Value of a base64 alphabet character; `none` for a character outside
the alphabet (which makes `atob` throw `InvalidCharacterError`). -/
def b64Val (c : Char) : Option Nat :=
  if 'A' ≤ c ∧ c ≤ 'Z' then some (c.toNat - 65)
  else if 'a' ≤ c ∧ c ≤ 'z' then some (c.toNat - 97 + 26)
  else if '0' ≤ c ∧ c ≤ '9' then some (c.toNat - 48 + 52)
  else if c = '+' then some 62
  else if c = '/' then some 63
  else none

/-- Forgiving-base64 padding removal: when the length is a multiple of 4,
drop one or two trailing `=` characters. -/
def b64DropPadding (s : List Char) : List Char :=
  if s.length % 4 = 0 then
    match s.reverse with
    | '=' :: '=' :: rest => rest.reverse
    | '=' :: rest => rest.reverse
    | _ => s
  else s

/-- Turn the 6-bit values of the stripped input into output bytes:
groups of four give three bytes; a final pair gives one byte (top 8 of
12 bits); a final triple gives two bytes (top 16 of 18 bits). -/
def b64Bytes : List Nat → List Nat
  | a :: b :: c :: d :: rest =>
    let n := a * 262144 + b * 4096 + c * 64 + d
    n / 65536 % 256 :: n / 256 % 256 :: n % 256 :: b64Bytes rest
  | [a, b] =>
    [(a * 64 + b) / 16]
  | [a, b, c] =>
    let n := a * 4096 + b * 64 + c
    [n / 1024, n / 4 % 256]
  | _ => []

/-- `window.atob`, the forgiving-base64 decode (WHATWG Infra): strip
ASCII whitespace, remove up to two trailing `=` when the length is a
multiple of 4, reject a remaining length of 1 mod 4 or any character
outside the alphabet, and emit the decoded bytes.  The code reads the
result string back into a `Uint8Array` via `charCodeAt`, so the byte
list is the faithful observable value. -/
def atob (s : String) : Option (List Nat) := do
  let data := b64DropPadding (s.data.filter (fun c => ¬ isB64Whitespace c))
  if data.length % 4 = 1 then
    none
  else
    let vals ← data.mapM b64Val
    pure (b64Bytes vals)

/-- A playable audio resource as constructed by `speak`: a `data:` URI
over the raw base64 payload, or an object URL over the blob of
header-prefixed WAV bytes. -/
inductive AudioSrc where
  | dataUri (b64 : String)
  | blobWav (bytes : List Nat)
  deriving DecidableEq, Repr

/-- The errors a playback strategy can raise: `invalidCharacter` from
`window.atob` on malformed base64, `mediaError` from a rejected
`audio.play()`.  The spec's `PlaybackError` is the resolver failing with
either. -/
inductive PlaybackError where
  | invalidCharacter
  | mediaError
  deriving DecidableEq, Repr

/-- Observable actions of one `speak` call, in program order. -/
inductive Ev where
  | pauseAudio
  | cancelSpeech
  | ttsRequest (text : String)
  | tryDirect (b64 : String)
  | decodeB64 (b64 : String)
  | buildHdr (n : Nat)
  | tryBlob (bytes : List Nat)
  | nativeSpeak (text : String)
  deriving DecidableEq, Repr

/-- The mutable state `speak` touches: the module-level `audioRef`
(at most one handle by construction) and the utterance currently given
to `window.speechSynthesis`, if any. -/
structure AudioState where
  audioRef : Option AudioSrc
  nativeSpeech : Option String
  deriving DecidableEq, Repr

/-- Environment choices the platform makes during playback: whether
`audio.play()` resolves for the data-URI attempt and for the blob
attempt. -/
structure PlayEnv where
  directPlayOk : Bool
  blobPlayOk : Bool

/-- Environment of a whole `speak` call: whether `speechSynthesis` is in
`window`, the outcome of the TTS backend call (`Except.error` models
`generateContent` throwing; the `Option` models the optional-chained
`inlineData.data`), and the playback environment. -/
structure SpeakEnv where
  hasSpeechSynthesis : Bool
  ttsResponse : Except Unit (Option String)
  playEnv : PlayEnv

/-- The playback resolver: the body of `if (base64Audio) { ... }` in
`speak` together with its truthiness guard (absent or empty payload is a
no-op).  Returns the new value of `audioRef` on success, the raised
error on failure, paired with the trace of attempts. -/
def play (env : PlayEnv) (payload : Option String) :
    Except PlaybackError (Option AudioSrc) × List Ev :=
  match payload with
  | none => (Except.ok none, [])
  | some b64 =>
    if b64 = "" then (Except.ok none, [])
    else if env.directPlayOk then
      (Except.ok (some (AudioSrc.dataUri b64)), [Ev.tryDirect b64])
    else
      match atob b64 with
      | none =>
        (Except.error PlaybackError.invalidCharacter,
         [Ev.tryDirect b64, Ev.decodeB64 b64])
      | some bytes =>
        let wavBytes := buildHeader 24000 1 16 bytes.length ++ bytes
        if env.blobPlayOk then
          (Except.ok (some (AudioSrc.blobWav wavBytes)),
           [Ev.tryDirect b64, Ev.decodeB64 b64, Ev.buildHdr bytes.length,
            Ev.tryBlob wavBytes])
        else
          (Except.error PlaybackError.mediaError,
           [Ev.tryDirect b64, Ev.decodeB64 b64, Ev.buildHdr bytes.length,
            Ev.tryBlob wavBytes])

/-- The whole `speak` call: pause and discard any current `audioRef`,
cancel platform speech synthesis when available, request TTS for the
first 300 characters of the text, run the resolver on the returned
payload, and on any thrown error fall back to speaking the full original
text through `speechSynthesis`. -/
def speak (env : SpeakEnv) (st : AudioState) (text : String) :
    AudioState × List Ev :=
  let ev0 :=
    (if st.audioRef.isSome then [Ev.pauseAudio] else []) ++
    (if env.hasSpeechSynthesis then [Ev.cancelSpeech] else []) ++
    [Ev.ttsRequest (text.take 300)]
  let st0 : AudioState :=
    { audioRef := none
      nativeSpeech := if env.hasSpeechSynthesis then none else st.nativeSpeech }
  match env.ttsResponse with
  | Except.error _ =>
    if env.hasSpeechSynthesis then
      ({ st0 with nativeSpeech := some text }, ev0 ++ [Ev.nativeSpeak text])
    else (st0, ev0)
  | Except.ok payload =>
    match play env.playEnv payload with
    | (Except.ok newRef, evs) => ({ st0 with audioRef := newRef }, ev0 ++ evs)
    | (Except.error _, evs) =>
      if env.hasSpeechSynthesis then
        ({ st0 with nativeSpeech := some text },
         ev0 ++ evs ++ [Ev.nativeSpeak text])
      else (st0, ev0 ++ evs)

/-- Sample environment in which the TTS call returns a payload and both
playback strategies fail. -/
def envBothFail : SpeakEnv :=
  SpeakEnv.mk true (Except.ok (some ("QQ=="))) (PlayEnv.mk false false)

/-- Sample environment in which the TTS call returns a malformed base64
payload and direct playback fails. -/
def envMalformed : SpeakEnv :=
  SpeakEnv.mk true (Except.ok (some ("!!!!"))) (PlayEnv.mk false false)

/-- Sample environment in which the TTS call returns no audio part. -/
def envNoAudio : SpeakEnv :=
  SpeakEnv.mk true (Except.ok none) (PlayEnv.mk true true)

/-- Sample environment in which the TTS backend call itself throws. -/
def envTtsThrows : SpeakEnv :=
  SpeakEnv.mk true (Except.error ()) (PlayEnv.mk true true)

/-- Sample playback environment in which direct playback succeeds. -/
def peDirectOk : PlayEnv := PlayEnv.mk true true

/-- Sample playback environment in which direct playback fails and blob
playback succeeds. -/
def peSynthOnly : PlayEnv := PlayEnv.mk false true

/-- Sample state with no active playback. -/
def stIdle : AudioState := AudioState.mk none none

/-- Sample state with a previous utterance still playing. -/
def stPlaying : AudioState :=
  AudioState.mk (some (AudioSrc.dataUri ("old"))) none

/-- Ten zero sample bytes, the decoding of the base64 string used in the
end-to-end witness. -/
def bytes10 : List Nat := [0, 0, 0, 0, 0, 0, 0, 0, 0, 0]

/-- The header construction written out: every byte position of the
44-byte buffer, as a function of the four inputs.  `bps / 8` is exact
for the bit depth the code uses (16), where it agrees with the
JavaScript real division. -/
theorem buildHeader_eq (sr ch bps n : Nat) :
    buildHeader sr ch bps n =
      [82, 73, 70, 70] ++ u32le (36 + n) ++ [87, 65, 86, 69, 102, 109, 116, 32] ++
      u32le 16 ++ u16le 1 ++ u16le ch ++ u32le sr ++
      u32le (sr * ch * (bps / 8)) ++ u16le (ch * (bps / 8)) ++ u16le bps ++
      [100, 97, 116, 97] ++ u32le n := by
  simp [buildHeader, writeString, writeStringAux, setUint8, setUint16, setUint32,
    u32le, u16le, List.replicate]

/-- The synthesized header is always 44 bytes. -/
theorem buildHeader_length (sr ch bps n : Nat) :
    (buildHeader sr ch bps n).length = 44 := by
  rw [buildHeader_eq]; rfl

/-- The resolver trace contains only playback-attempt events: never the
preemption events of the enclosing call, a TTS request, or a native
speech fallback. -/
theorem play_trace_no_control (env : PlayEnv) (p : Option String) :
    Ev.pauseAudio ∉ (play env p).2 ∧ Ev.cancelSpeech ∉ (play env p).2 ∧
    (∀ t, Ev.nativeSpeak t ∉ (play env p).2) ∧
    (∀ t, Ev.ttsRequest t ∉ (play env p).2) := by
  rcases p with _ | b64
  · simp [play]
  · by_cases h0 : b64 = ""
    · simp [play, h0]
    · cases hd : env.directPlayOk
      · cases hA : atob b64 with
        | none => simp [play, h0, hd, hA]
        | some bytes => cases hB : env.blobPlayOk <;> simp [play, h0, hd, hA, hB]
      · simp [play, h0, hd]

/-- C1: for every payload byte length `n` (and every sample rate and
channel count, at the 16-bit depth the system uses), `buildHeader`
produces exactly the 44-byte little-endian header of the spec's field
table: ASCII RIFF, uint32 36+n, ASCII WAVE, ASCII fmt-space, uint32 16,
uint16 1, uint16 channel count, uint32 sample rate, uint32 byte rate
sampleRate*channels*(bits/8), uint16 block alignment channels*(bits/8),
uint16 bits per sample, ASCII data, uint32 n; and with the fixed format
(24000 Hz, 1 channel, 16 bits) the byte-rate field decodes to 48000 and
the block-alignment field to 2. -/
theorem c1_header_layout (sr ch n : Nat) :
    buildHeader sr ch 16 n =
      [82, 73, 70, 70] ++ u32le (36 + n) ++ [87, 65, 86, 69, 102, 109, 116, 32] ++
      u32le 16 ++ u16le 1 ++ u16le ch ++ u32le sr ++
      u32le (sr * ch * (16 / 8)) ++ u16le (ch * (16 / 8)) ++ u16le 16 ++
      [100, 97, 116, 97] ++ u32le n ∧
    (buildHeader sr ch 16 n).length = 44 ∧
    readLE (buildHeader 24000 1 16 n) 28 4 = 48000 ∧
    readLE (buildHeader 24000 1 16 n) 32 2 = 2 := by
  refine ⟨buildHeader_eq sr ch 16 n, buildHeader_length sr ch 16 n, ?_, ?_⟩ <;>
    · rw [buildHeader_eq]
      simp [readLE, readLEfrom, u32le, u16le]

/-- C2: for every non-empty base64 payload, the resolver attempts the
strategies in strict order: when direct playback succeeds the call ends
with exactly the direct attempt (the synthesized-container step is never
taken); only when it throws does the resolver decode the base64 string,
synthesize the header with the fixed constants 24000/1/16 and the
decoded length, prepend it, and attempt playback of the blob. -/
theorem c2_strategy_order (env : PlayEnv) (b64 : String) (hne : b64 ≠ "") :
    (env.directPlayOk = true →
      play env (some b64) =
        (Except.ok (some (AudioSrc.dataUri b64)), [Ev.tryDirect b64])) ∧
    (env.directPlayOk = false → ∀ bytes, atob b64 = some bytes →
      (play env (some b64)).2 =
        [Ev.tryDirect b64, Ev.decodeB64 b64, Ev.buildHdr bytes.length,
         Ev.tryBlob (buildHeader 24000 1 16 bytes.length ++ bytes)]) := by
  constructor
  · intro hd; simp [play, hne, hd]
  · intro hd bytes hb
    cases hB : env.blobPlayOk <;> simp [play, hne, hd, hb, hB]

/-- C3: when both the direct and the synthesized-container strategies
raise, the play call itself fails with a `PlaybackError`, no playback
handle is created or left dangling, and the platform-native
speech-synthesis fallback is performed by the enclosing caller — the
resolver itself never speaks natively. -/
theorem c3_total_failure (env : SpeakEnv) (st : AudioState) (text b64 : String)
    (hd : env.playEnv.directPlayOk = false) (hb : env.playEnv.blobPlayOk = false)
    (hne : b64 ≠ "") (hresp : env.ttsResponse = Except.ok (some b64)) :
    (∃ e, (play env.playEnv (some b64)).1 = Except.error e) ∧
    (speak env st text).1.audioRef = none ∧
    (∀ t, Ev.nativeSpeak t ∉ (play env.playEnv (some b64)).2) ∧
    (env.hasSpeechSynthesis = true → Ev.nativeSpeak text ∈ (speak env st text).2) := by
  have hplay : ∃ e evs, play env.playEnv (some b64) = (Except.error e, evs) := by
    cases hA : atob b64 with
    | none =>
      exact ⟨PlaybackError.invalidCharacter, [Ev.tryDirect b64, Ev.decodeB64 b64],
        by simp [play, hne, hd, hA]⟩
    | some bytes =>
      exact ⟨PlaybackError.mediaError,
        [Ev.tryDirect b64, Ev.decodeB64 b64, Ev.buildHdr bytes.length,
         Ev.tryBlob (buildHeader 24000 1 16 bytes.length ++ bytes)],
        by simp [play, hne, hd, hA, hb]⟩
  obtain ⟨e, evs, hpe⟩ := hplay
  refine ⟨⟨e, by rw [hpe]⟩, ?_,
    (play_trace_no_control env.playEnv (some b64)).2.2.1, ?_⟩
  · cases hss : env.hasSpeechSynthesis <;> simp [speak, hresp, hpe, hss]
  · intro hss; simp [speak, hresp, hpe, hss]

/-- C4: a `speak` call with a previous playback active begins by pausing
and discarding that handle and cancelling native speech synthesis — both
exactly once, before any other action — so no two audio resources can
play concurrently. -/
theorem c4_preempt_before_playback (env : SpeakEnv) (st : AudioState) (text : String)
    (hprev : st.audioRef.isSome = true) (hss : env.hasSpeechSynthesis = true) :
    ∃ rest, (speak env st text).2 = Ev.pauseAudio :: Ev.cancelSpeech :: rest ∧
      Ev.pauseAudio ∉ rest ∧ Ev.cancelSpeech ∉ rest := by
  cases hresp : env.ttsResponse with
  | error u =>
    exact ⟨[Ev.ttsRequest (text.take 300), Ev.nativeSpeak text],
      by simp [speak, hresp, hprev, hss], by simp, by simp⟩
  | ok payload =>
    obtain ⟨hp, hc, -, -⟩ := play_trace_no_control env.playEnv payload
    rcases hpl : play env.playEnv payload with ⟨res, evs⟩
    rw [hpl] at hp hc
    cases res with
    | ok newRef =>
      refine ⟨Ev.ttsRequest (text.take 300) :: evs,
        by simp [speak, hresp, hprev, hss, hpl], ?_, ?_⟩ <;> simp_all
    | error e =>
      refine ⟨Ev.ttsRequest (text.take 300) :: (evs ++ [Ev.nativeSpeak text]),
        by simp [speak, hresp, hprev, hss, hpl], ?_, ?_⟩ <;> simp_all

/-- C5: the blob attempted by the synthesized-container strategy is the
44-byte header followed immediately by the decoded payload bytes, with
total length 44 + N; for N = 10 the offset-40 field holds the little-
endian bytes of 10 and the blob is exactly 54 bytes. -/
theorem c5_blob_concatenation (env : PlayEnv) (b64 : String) (bytes : List Nat)
    (hne : b64 ≠ "") (hd : env.directPlayOk = false) (ha : atob b64 = some bytes) :
    Ev.tryBlob (buildHeader 24000 1 16 bytes.length ++ bytes) ∈ (play env (some b64)).2 ∧
    (buildHeader 24000 1 16 bytes.length ++ bytes).length = 44 + bytes.length ∧
    (bytes.length = 10 →
      (buildHeader 24000 1 16 bytes.length).drop 40 = [10, 0, 0, 0] ∧
      (buildHeader 24000 1 16 bytes.length ++ bytes).length = 54) := by
  refine ⟨?_, ?_, ?_⟩
  · cases hB : env.blobPlayOk <;> simp [play, hne, hd, ha, hB]
  · simp [buildHeader_length]
  · intro h10
    rw [h10]
    exact ⟨by decide, by simp [buildHeader_length, h10]⟩

/-- C6: an absent or empty base64 payload makes play a no-op, not an
error: the result is success, no handle is produced, and the empty trace
shows that no header is synthesized and no playback is attempted. -/
theorem c6_empty_payload_noop (env : PlayEnv) :
    play env none = (Except.ok none, []) ∧
    play env (some ("")) = (Except.ok none, []) :=
  ⟨rfl, by simp [play]⟩

/-- C7: a payload that is not valid base64 is not rejected up front —
direct playback can still succeed on it; only after direct playback
fails does the decode raise, and the error is handled identically to a
playback failure: the speak call ends on the same final failure path
(no handle, native fallback). -/
theorem c7_malformed_base64 (env : SpeakEnv) (st : AudioState) (text b64 : String)
    (hbad : atob b64 = none) (hne : b64 ≠ "")
    (hresp : env.ttsResponse = Except.ok (some b64)) :
    (env.playEnv.directPlayOk = true →
      (play env.playEnv (some b64)).1 = Except.ok (some (AudioSrc.dataUri b64))) ∧
    (env.playEnv.directPlayOk = false →
      play env.playEnv (some b64) =
        (Except.error PlaybackError.invalidCharacter,
         [Ev.tryDirect b64, Ev.decodeB64 b64]) ∧
      (env.hasSpeechSynthesis = true →
        (speak env st text).1 = ⟨none, some text⟩ ∧
        Ev.nativeSpeak text ∈ (speak env st text).2)) := by
  refine ⟨?_, ?_⟩
  · intro hd; simp [play, hne, hd]
  · intro hd
    have hpe : play env.playEnv (some b64) =
        (Except.error PlaybackError.invalidCharacter,
         [Ev.tryDirect b64, Ev.decodeB64 b64]) := by
      simp [play, hne, hd, hbad]
    refine ⟨hpe, ?_⟩
    intro hss
    constructor <;> simp [speak, hresp, hpe, hss]

/-- C8: the header builder does not bound the payload size: for every
byte length `n` the total-size field at offset 4 stores (36+n) mod 2^32
and the data-size field at offset 40 stores n mod 2^32, so oversized
lengths silently wrap — at n = 2^32 + 7 the stored data size is 7, and
at n = 2^32 the stored total size is 36. -/
theorem c8_size_fields_wrap (n : Nat) :
    readLE (buildHeader 24000 1 16 n) 4 4 = (36 + n) % 2 ^ 32 ∧
    readLE (buildHeader 24000 1 16 n) 40 4 = n % 2 ^ 32 ∧
    readLE (buildHeader 24000 1 16 (2 ^ 32 + 7)) 40 4 = 7 ∧
    readLE (buildHeader 24000 1 16 (2 ^ 32)) 4 4 = 36 := by
  refine ⟨?_, ?_, by decide, by decide⟩ <;>
    · rw [buildHeader_eq]
      simp [readLE, readLEfrom, u32le, u16le]
      omega

/-- C9: the silencing of current playback and of native speech synthesis
happens unconditionally at the start of every speak call, before the
audio payload is obtained: even when the payload turns out to be absent
or empty (the no-op case), the previous handle is paused first, speech
synthesis is cancelled, and the final state holds no audio and no native
utterance. -/
theorem c9_silence_even_on_noop (env : SpeakEnv) (st : AudioState) (text : String)
    (hss : env.hasSpeechSynthesis = true)
    (hresp : env.ttsResponse = Except.ok none ∨ env.ttsResponse = Except.ok (some (""))) :
    (speak env st text).1.audioRef = none ∧
    (speak env st text).1.nativeSpeech = none ∧
    (speak env st text).2 =
      (if st.audioRef.isSome then [Ev.pauseAudio] else []) ++
      [Ev.cancelSpeech, Ev.ttsRequest (text.take 300)] := by
  rcases hresp with h | h <;> rcases hp : st.audioRef.isSome <;>
    simp [speak, h, hss, play, hp]

/-- C10: the text sent to the TTS backend is always the first 300
characters of the input (every TTS request in the trace carries exactly
that truncation), while the platform-native fallback on failure of the
backend call receives and records the full untruncated text. -/
theorem c10_truncate_tts_text (env : SpeakEnv) (st : AudioState) (text : String) :
    Ev.ttsRequest (text.take 300) ∈ (speak env st text).2 ∧
    (∀ t, Ev.ttsRequest t ∈ (speak env st text).2 → t = text.take 300) ∧
    (env.ttsResponse = Except.error () → env.hasSpeechSynthesis = true →
      Ev.nativeSpeak text ∈ (speak env st text).2 ∧
      (speak env st text).1.nativeSpeech = some text) := by
  refine ⟨?_, ?_, ?_⟩
  · cases hresp : env.ttsResponse with
    | error u =>
      cases hss : env.hasSpeechSynthesis <;> simp [speak, hresp, hss]
    | ok payload =>
      rcases hpl : play env.playEnv payload with ⟨res, evs⟩
      cases res <;> cases hss : env.hasSpeechSynthesis <;>
        simp [speak, hresp, hss, hpl]
  · intro t ht
    revert ht
    cases hresp : env.ttsResponse with
    | error u =>
      cases hss : env.hasSpeechSynthesis <;> cases hp : st.audioRef.isSome <;>
        simp [speak, hresp, hss, hp]
    | ok payload =>
      rcases hpl : play env.playEnv payload with ⟨res, evs⟩
      have hnoev : Ev.ttsRequest t ∉ evs := by
        have h2 := (play_trace_no_control env.playEnv payload).2.2.2 t
        rw [hpl] at h2; exact h2
      cases res <;> cases hss : env.hasSpeechSynthesis <;>
        cases hp : st.audioRef.isSome <;>
        simp [speak, hresp, hss, hpl, hp, hnoev]
  · intro herr hss
    constructor <;> simp [speak, herr, hss]

/-- Witness for C2: concrete environment in which direct playback
succeeds, with a concrete non-empty payload. -/
theorem c2_strategy_order_witness :
    (("QQ==" : String) ≠ "") ∧
    ((peDirectOk.directPlayOk = true →
      play peDirectOk (some ("QQ==")) =
        (Except.ok (some (AudioSrc.dataUri ("QQ=="))), [Ev.tryDirect ("QQ==")])) ∧
     (peDirectOk.directPlayOk = false → ∀ bytes, atob ("QQ==") = some bytes →
      (play peDirectOk (some ("QQ=="))).2 =
        [Ev.tryDirect ("QQ=="), Ev.decodeB64 ("QQ=="), Ev.buildHdr bytes.length,
         Ev.tryBlob (buildHeader 24000 1 16 bytes.length ++ bytes)])) :=
  ⟨by decide, c2_strategy_order peDirectOk ("QQ==") (by decide)⟩

/-- Witness for C3: concrete environment in which both strategies
fail. -/
theorem c3_total_failure_witness :
    envBothFail.playEnv.directPlayOk = false ∧
    envBothFail.playEnv.blobPlayOk = false ∧
    (("QQ==" : String) ≠ "") ∧
    envBothFail.ttsResponse = Except.ok (some ("QQ==")) ∧
    ((∃ e, (play envBothFail.playEnv (some ("QQ=="))).1 = Except.error e) ∧
     (speak envBothFail stIdle ("hi")).1.audioRef = none ∧
     (∀ t, Ev.nativeSpeak t ∉ (play envBothFail.playEnv (some ("QQ=="))).2) ∧
     (envBothFail.hasSpeechSynthesis = true →
       Ev.nativeSpeak ("hi") ∈ (speak envBothFail stIdle ("hi")).2)) :=
  ⟨rfl, rfl, by decide, rfl,
   c3_total_failure envBothFail stIdle ("hi") ("QQ==") rfl rfl (by decide) rfl⟩

/-- Witness for C4: concrete call with a previous playback active. -/
theorem c4_preempt_before_playback_witness :
    stPlaying.audioRef.isSome = true ∧
    envBothFail.hasSpeechSynthesis = true ∧
    (∃ rest, (speak envBothFail stPlaying ("hi")).2 =
        Ev.pauseAudio :: Ev.cancelSpeech :: rest ∧
      Ev.pauseAudio ∉ rest ∧ Ev.cancelSpeech ∉ rest) :=
  ⟨rfl, rfl, c4_preempt_before_playback envBothFail stPlaying ("hi") rfl rfl⟩

/-- Witness for C5: ten zero PCM bytes, base64-encoded, with direct
playback failing. -/
theorem c5_blob_concatenation_witness :
    (("AAAAAAAAAAAAAA==" : String) ≠ "") ∧
    peSynthOnly.directPlayOk = false ∧
    atob ("AAAAAAAAAAAAAA==") = some bytes10 ∧
    (Ev.tryBlob (buildHeader 24000 1 16 bytes10.length ++ bytes10) ∈
        (play peSynthOnly (some ("AAAAAAAAAAAAAA=="))).2 ∧
     (buildHeader 24000 1 16 bytes10.length ++ bytes10).length =
        44 + bytes10.length ∧
     (bytes10.length = 10 →
       (buildHeader 24000 1 16 bytes10.length).drop 40 = [10, 0, 0, 0] ∧
       (buildHeader 24000 1 16 bytes10.length ++ bytes10).length = 54)) :=
  ⟨by decide, rfl, by decide,
   c5_blob_concatenation peSynthOnly ("AAAAAAAAAAAAAA==") bytes10
     (by decide) rfl (by decide)⟩

/-- Witness for C7: a concrete malformed payload, with direct playback
failing. -/
theorem c7_malformed_base64_witness :
    atob ("!!!!") = none ∧
    (("!!!!" : String) ≠ "") ∧
    envMalformed.ttsResponse = Except.ok (some ("!!!!")) ∧
    ((envMalformed.playEnv.directPlayOk = true →
      (play envMalformed.playEnv (some ("!!!!"))).1 =
        Except.ok (some (AudioSrc.dataUri ("!!!!")))) ∧
     (envMalformed.playEnv.directPlayOk = false →
      play envMalformed.playEnv (some ("!!!!")) =
        (Except.error PlaybackError.invalidCharacter,
         [Ev.tryDirect ("!!!!"), Ev.decodeB64 ("!!!!")]) ∧
      (envMalformed.hasSpeechSynthesis = true →
        (speak envMalformed stIdle ("hi")).1 = ⟨none, some ("hi")⟩ ∧
        Ev.nativeSpeak ("hi") ∈ (speak envMalformed stIdle ("hi")).2))) :=
  ⟨by decide, by decide, rfl,
   c7_malformed_base64 envMalformed stIdle ("hi") ("!!!!")
     (by decide) (by decide) rfl⟩

/-- Witness for C9: concrete call whose TTS response carries no audio
part. -/
theorem c9_silence_even_on_noop_witness :
    envNoAudio.hasSpeechSynthesis = true ∧
    (envNoAudio.ttsResponse = Except.ok none ∨
     envNoAudio.ttsResponse = Except.ok (some (""))) ∧
    ((speak envNoAudio stIdle ("hi")).1.audioRef = none ∧
     (speak envNoAudio stIdle ("hi")).1.nativeSpeech = none ∧
     (speak envNoAudio stIdle ("hi")).2 =
       (if stIdle.audioRef.isSome then [Ev.pauseAudio] else []) ++
       [Ev.cancelSpeech, Ev.ttsRequest (("hi" : String).take 300)]) :=
  ⟨rfl, Or.inl rfl,
   c9_silence_even_on_noop envNoAudio stIdle ("hi") rfl (Or.inl rfl)⟩

/-- Witness for C10: concrete call in which the TTS backend call
throws. -/
theorem c10_truncate_tts_text_witness :
    Ev.ttsRequest (("hi" : String).take 300) ∈
      (speak envTtsThrows stIdle ("hi")).2 ∧
    (∀ t, Ev.ttsRequest t ∈ (speak envTtsThrows stIdle ("hi")).2 →
      t = ("hi" : String).take 300) ∧
    (envTtsThrows.ttsResponse = Except.error () →
      envTtsThrows.hasSpeechSynthesis = true →
      Ev.nativeSpeak ("hi") ∈ (speak envTtsThrows stIdle ("hi")).2 ∧
      (speak envTtsThrows stIdle ("hi")).1.nativeSpeech = some ("hi")) :=
  c10_truncate_tts_text envTtsThrows stIdle ("hi")
